import Mathlib

/-!
Shallow embedding of the dynamodb-lock-nodejs core (lock entity, store
adapter, lock coordinator) and proofs about the claims of its
specification.  JavaScript numbers are modelled as exact rationals (the
values involved are millisecond counts far below 2^53, where double
arithmetic including division by two is exact).  Asynchronous backend
calls are modelled by oracles consumed in program order, and the
unbounded retry loop by an explicit fuel parameter.
-/

namespace DynamoLock

/-- Milliseconds, as JavaScript numbers: exact rationals. -/
abbrev Ms := ℚ

/-- Severity tags of the coordinator's log callback (lock-client.ts, LogSeverity). -/
inductive LogSeverity where
  | error
  | warn
  | info
deriving DecidableEq, Repr

/-- Caller-supplied payload persisted with the record, opaque to the core
(additionalAttributes).  Modelled as an association list. -/
abbrev AttrMap := List (String × String)

/-- User-supplied lock options (model/lock.ts, LockOptions).  Every field is
optional; defaults are applied by the Lock constructor. -/
structure LockOptions where
  leaseDurationInMs : Option Ms := none
  prolongLeaseEnabled : Option Bool := none
  prolongEveryMs : Option Ms := none
  trustLocalTime : Option Bool := none
  waitDurationInMs : Option Ms := none
  maxRetryCount : Option Nat := none
  additionalAttributes : Option AttrMap := none
deriving DecidableEq, Repr

/-- The in-memory lock handle (model/lock.ts, class Lock).  The defaults are
the TS constructor's defaults.  timeoutHandler is the stored prolongation
timer handle (opaque; present or absent). -/
structure Lock where
  lockId : String
  lockGroup : String
  ownerName : String
  recordVersionNumber : Option String := none
  lastUpdatedTimeInMs : Option Ms := none
  isAcquired : Bool := false
  leaseDurationInMs : Ms := 20000
  additionalAttributes : AttrMap := []
  prolongLeaseEnabled : Bool := true
  prolongEveryMs : Ms := 5000
  maxRetryCount : Option Nat := none
  trustLocalTime : Bool := false
  waitDurationInMs : Option Ms := none
  timeoutHandler : Option Unit := none
deriving DecidableEq, Repr

/-- Lock.validate (model/lock.ts): true iff the source method throws
LockOptionsValidationError, i.e. the handle is not acquired, prolongation is
enabled and prolongEveryMs is at least leaseDurationInMs / 2. -/
def Lock.validateFails (l : Lock) : Bool :=
  !l.isAcquired && l.prolongLeaseEnabled && decide (l.prolongEveryMs ≥ l.leaseDurationInMs / 2)

/-- Lock.create (model/lock.ts): builds the handle with the constructor's
defaults for absent options, then validates; a validation failure is the
thrown LockOptionsValidationError. -/
def Lock.create (lockGroup lockId ownerName : String) (recordVersionNumber : Option String)
    (lastUpdatedTimeInMs : Option Ms) (isAcquired : Bool) (lockOptions : LockOptions) :
    Except Unit Lock :=
  let lock : Lock :=
    { lockId := lockId
      lockGroup := lockGroup
      ownerName := ownerName
      recordVersionNumber := recordVersionNumber
      lastUpdatedTimeInMs := lastUpdatedTimeInMs
      isAcquired := isAcquired
      leaseDurationInMs := lockOptions.leaseDurationInMs.getD 20000
      additionalAttributes := lockOptions.additionalAttributes.getD []
      prolongLeaseEnabled := lockOptions.prolongLeaseEnabled.getD true
      prolongEveryMs := lockOptions.prolongEveryMs.getD 5000
      maxRetryCount := lockOptions.maxRetryCount
      trustLocalTime := lockOptions.trustLocalTime.getD false
      waitDurationInMs := lockOptions.waitDurationInMs
      timeoutHandler := none }
  if lock.validateFails then Except.error () else Except.ok lock

/-- getUniqueLockIdentifier (model/lock.ts): the registry key "group|id". -/
def Lock.getUniqueLockIdentifier (l : Lock) : String :=
  l.lockGroup ++ "|" ++ l.lockId

/-- leaseExpirationTimePassed (model/lock.ts).  The source guard is the JS
truthiness test `!this.lastUpdatedTimeInMs`, which holds both for an unset
value and for the number 0; otherwise the result is
now > lastUpdatedTimeInMs + leaseDurationInMs.  `now` stands for Date.now(). -/
def Lock.leaseExpirationTimePassed (l : Lock) (now : Ms) : Bool :=
  match l.lastUpdatedTimeInMs with
  | none => false
  | some t => if t = 0 then false else decide (now > t + l.leaseDurationInMs)

/-- acquired (model/lock.ts): sets isAcquired. -/
def Lock.acquired (l : Lock) : Lock := { l with isAcquired := true }

/-- released (model/lock.ts): clears isAcquired and cancels (clears) the
stored prolongation timer handle if any. -/
def Lock.released (l : Lock) : Lock := { l with isAcquired := false, timeoutHandler := none }

/-- attemptLocking (model/lock.ts): stores the tentative version token and
write time. -/
def Lock.attemptLocking (l : Lock) (recordVersionNumber : String) (whenMs : Ms) : Lock :=
  { l with recordVersionNumber := some recordVersionNumber, lastUpdatedTimeInMs := some whenMs }

/-- resetLockingAttempt (model/lock.ts): clears the tentative version token
and write time. -/
def Lock.resetLockingAttempt (l : Lock) : Lock :=
  { l with recordVersionNumber := none, lastUpdatedTimeInMs := none }

/-- attemptProlonging (model/lock.ts): stores the scheduled renewal timer
handle. -/
def Lock.attemptProlonging (l : Lock) : Lock := { l with timeoutHandler := some () }

/-- prolonged (model/lock.ts): installs the renewed version token and write
time. -/
def Lock.prolonged (l : Lock) (newRecordVersionNumber : String) (whenMs : Ms) : Lock :=
  { l with recordVersionNumber := some newRecordVersionNumber,
           lastUpdatedTimeInMs := some whenMs }

/-! ## Store adapter (data-layer.ts) -/

/-- The persisted lock record: the five reserved attributes stored under the
composite key (data-layer.ts, LockTableAttrs). -/
structure LockRecord where
  recordVersionNumber : Option String
  ownerName : String
  lastUpdatedTimeInMs : Option Ms
  leaseDurationInMs : Ms
  additionalAttributes : AttrMap
deriving DecidableEq, Repr

/-- Backend-signalled failures of a conditional write. -/
inductive DbError where
  | conditionalCheckFailed
  | transport (code : String)
deriving DecidableEq, Repr

/-- PATH_EXPRESSION (data-layer.ts). -/
def PATH_EXPRESSION (recordKey : String) : String := "#" ++ recordKey

/-- VALUE_EXPRESSION (data-layer.ts). -/
def VALUE_EXPRESSION (recordKey : String) : String := ":" ++ recordKey

/-- UPDATE_VALUE_EXPRESSION (data-layer.ts). -/
def UPDATE_VALUE_EXPRESSION (recordKey : String) : String := ":new" ++ recordKey

/-- UPDATE_EXPRESSION (data-layer.ts): the SET clause over the given keys. -/
def UPDATE_EXPRESSION (recordKeys : List String) : String :=
  "SET " ++ String.intercalate ", "
    (recordKeys.map fun recordKey =>
      PATH_EXPRESSION recordKey ++ " = " ++ UPDATE_VALUE_EXPRESSION recordKey)

/-- PK_PATH_EXPRESSION_VARIABLE (data-layer.ts). -/
def PK_PATH_EXPRESSION_VARIABLE : String := "#pk"

/-- SK_PATH_EXPRESSION_VARIABLE (data-layer.ts). -/
def SK_PATH_EXPRESSION_VARIABLE : String := "#sk"

/-- ACQUIRE_LOCK_THAT_DOESNT_EXIST_CONDITION (data-layer.ts): the
ConditionExpression of createNewLock. -/
def ACQUIRE_LOCK_THAT_DOESNT_EXIST_CONDITION : String :=
  "attribute_not_exists(" ++ PK_PATH_EXPRESSION_VARIABLE ++ ") AND attribute_not_exists(" ++
    SK_PATH_EXPRESSION_VARIABLE ++ ")"

/-- LOCK_EXIST_CONDITION (data-layer.ts). -/
def LOCK_EXIST_CONDITION : String :=
  "attribute_exists(" ++ PK_PATH_EXPRESSION_VARIABLE ++ ") AND attribute_exists(" ++
    SK_PATH_EXPRESSION_VARIABLE ++ ")"

/-- LOCK_EXIST_AND_RVN_SAME_CONDITION (data-layer.ts): the
ConditionExpression of updateLockWithNewLockContent (steal). -/
def LOCK_EXIST_AND_RVN_SAME_CONDITION : String :=
  LOCK_EXIST_CONDITION ++ " AND " ++ PATH_EXPRESSION "recordVersionNumber" ++ " = " ++
    VALUE_EXPRESSION "recordVersionNumber"

/-- LOCK_EXIST_AND_RVN_AND_OWNER_NAME_SAME_CONDITION (data-layer.ts): the
ConditionExpression of updateRecordVersionNumberAndTime (renew) and
deleteLock. -/
def LOCK_EXIST_AND_RVN_AND_OWNER_NAME_SAME_CONDITION : String :=
  LOCK_EXIST_AND_RVN_SAME_CONDITION ++ " AND " ++ PATH_EXPRESSION "ownerName" ++ " = " ++
    VALUE_EXPRESSION "ownerName"

namespace DataLayer

/-- createNewLock (data-layer.ts): conditional put of the handle's five
reserved attributes, gated by ACQUIRE_LOCK_THAT_DOESNT_EXIST_CONDITION, i.e.
it succeeds exactly when no item is stored under the composite key.
`item` is the item currently stored at (partitionKey = lockId,
sortKey = lockGroup); the result is the new stored item. -/
def createNewLock (item : Option LockRecord) (lockItem : Lock) :
    Except DbError (Option LockRecord) :=
  match item with
  | none => Except.ok (some
      { recordVersionNumber := lockItem.recordVersionNumber
        ownerName := lockItem.ownerName
        lastUpdatedTimeInMs := lockItem.lastUpdatedTimeInMs
        leaseDurationInMs := lockItem.leaseDurationInMs
        additionalAttributes := lockItem.additionalAttributes })
  | some _ => Except.error DbError.conditionalCheckFailed

/-- updateRecordVersionNumberAndTime (data-layer.ts), the renewal write:
conditional update gated by LOCK_EXIST_AND_RVN_AND_OWNER_NAME_SAME_CONDITION
(the item exists, its recordVersionNumber equals the issuing handle's and its
ownerName equals the issuing handle's), setting recordVersionNumber and
lastUpdatedTimeInMs. -/
def updateRecordVersionNumberAndTime (item : Option LockRecord) (existingLock : Lock)
    (newRecordVersionNumber : String) (whenMs : Ms) : Except DbError (Option LockRecord) :=
  match item with
  | some r =>
      if r.recordVersionNumber = existingLock.recordVersionNumber ∧
          r.ownerName = existingLock.ownerName then
        Except.ok (some { r with recordVersionNumber := some newRecordVersionNumber,
                                 lastUpdatedTimeInMs := some whenMs })
      else Except.error DbError.conditionalCheckFailed
  | none => Except.error DbError.conditionalCheckFailed

/-- updateLockWithNewLockContent (data-layer.ts), the steal write:
conditional update gated by LOCK_EXIST_AND_RVN_SAME_CONDITION (the item
exists and its recordVersionNumber equals the observed existing lock's; the
owner is not part of the predicate), replacing all five reserved attributes
with the new handle's. -/
def updateLockWithNewLockContent (item : Option LockRecord) (existingLock newLock : Lock) :
    Except DbError (Option LockRecord) :=
  match item with
  | some r =>
      if r.recordVersionNumber = existingLock.recordVersionNumber then
        Except.ok (some
          { recordVersionNumber := newLock.recordVersionNumber
            ownerName := newLock.ownerName
            lastUpdatedTimeInMs := newLock.lastUpdatedTimeInMs
            leaseDurationInMs := newLock.leaseDurationInMs
            additionalAttributes := newLock.additionalAttributes })
      else Except.error DbError.conditionalCheckFailed
  | none => Except.error DbError.conditionalCheckFailed

/-- deleteLock (data-layer.ts): conditional delete gated by
LOCK_EXIST_AND_RVN_AND_OWNER_NAME_SAME_CONDITION (the item exists, its
recordVersionNumber and its ownerName equal the issuing handle's). -/
def deleteLock (item : Option LockRecord) (lockItem : Lock) :
    Except DbError (Option LockRecord) :=
  match item with
  | some r =>
      if r.recordVersionNumber = lockItem.recordVersionNumber ∧
          r.ownerName = lockItem.ownerName then
        Except.ok none
      else Except.error DbError.conditionalCheckFailed
  | none => Except.error DbError.conditionalCheckFailed

end DataLayer

/-! ## Lock coordinator (lock-client.ts)

The coordinator's backend calls are modelled by oracles consumed in program
order: the n-th strong read returns `getResp n`, the n-th conditional write
returns `writeResp n`, and the n-th clock reading returns `nowAt n`.  UUIDs
are drawn from a counter (their values never influence control flow in the
source).  The unbounded retry recursion of acquireLock is driven by an
explicit fuel parameter; running out of fuel yields `none`. -/

/-- Outcome of one conditional write as seen by the client: success, a
ConditionalCheckFailedException, or another error with its code. -/
inductive WriteResp where
  | ok
  | condFail
  | err (code : String)
deriving DecidableEq, Repr

/-- The backend and clock oracles of one run. -/
structure Backend where
  getResp : Nat → Option LockRecord
  writeResp : Nat → WriteResp
  nowAt : Nat → Ms

/-- The coordinator state threaded through a run: the registry of acquired
locks (acquiredLocks, keyed by the unique lock identifier) plus counters of
the strong reads issued, the conditional writes issued, the prolongation
timers armed, the clock readings taken and the UUIDs generated. -/
structure RunState where
  registry : List (String × Lock)
  getCount : Nat
  writeCount : Nat
  timersArmed : Nat
  tick : Nat
  uuidCount : Nat
deriving DecidableEq, Repr

/-- The empty coordinator state: fresh client, no acquired locks. -/
def RunState.init : RunState :=
  { registry := [], getCount := 0, writeCount := 0, timersArmed := 0, tick := 0, uuidCount := 0 }

/-- JS object property assignment on the registry: overwrite or append. -/
def regInsert (uid : String) (l : Lock) (regs : List (String × Lock)) :
    List (String × Lock) :=
  if regs.any (fun p => p.1 = uid) then
    regs.map fun p => if p.1 = uid then (uid, l) else p
  else regs ++ [(uid, l)]

/-- JS delete of a registry property. -/
def regRemove (uid : String) (regs : List (String × Lock)) : List (String × Lock) :=
  regs.filter fun p => p.1 ≠ uid

/-- Registry lookup by unique lock identifier. -/
def regLookup (uid : String) (regs : List (String × Lock)) : Option Lock :=
  (regs.find? fun p => p.1 = uid).map Prod.snd

/-- Issue the next strong read (dataLayer.getLockByGroupAndId). -/
def RunState.doGet (rs : RunState) (b : Backend) : Option LockRecord × RunState :=
  (b.getResp rs.getCount, { rs with getCount := rs.getCount + 1 })

/-- Issue the next conditional write and observe its outcome. -/
def RunState.doWrite (rs : RunState) (b : Backend) : WriteResp × RunState :=
  (b.writeResp rs.writeCount, { rs with writeCount := rs.writeCount + 1 })

/-- Read the local clock (Date.now() / new Date()). -/
def RunState.doNow (rs : RunState) (b : Backend) : Ms × RunState :=
  (b.nowAt rs.tick, { rs with tick := rs.tick + 1 })

/-- LockClient.generateUUID, drawn from the run's counter. -/
def RunState.freshUUID (rs : RunState) : String × RunState :=
  ("uuid-" ++ toString rs.uuidCount, { rs with uuidCount := rs.uuidCount + 1 })

/-- Outcome of the acquisition loop: the granted handle, a
LockNotGrantedError, or a propagated non-conditional backend error. -/
inductive AcqOutcome where
  | acquired (lock : Lock)
  | notGranted
  | backendErr (code : String)
deriving DecidableEq, Repr

/-- The maxRetryCount guard of acquireLock:
lock.maxRetryCount !== undefined && retryCount > lock.maxRetryCount. -/
def maxRetryExceeded (l : Lock) (retryCount : Nat) : Bool :=
  match l.maxRetryCount with
  | some m => decide (retryCount > m)
  | none => false

/-- LockClient.lockAcquired: mark the handle acquired, store it in the
registry and, when prolongation is enabled, arm the one-shot renewal timer
(startProlongingLease stores the timer handle via attemptProlonging). -/
def lockAcquired (l : Lock) (rs : RunState) : Lock × RunState :=
  let l := l.acquired
  let l := if l.prolongLeaseEnabled then l.attemptProlonging else l
  let rs := { rs with registry := regInsert l.getUniqueLockIdentifier l rs.registry }
  if l.prolongLeaseEnabled then (l, { rs with timersArmed := rs.timersArmed + 1 })
  else (l, rs)

/-- The recursive acquisition procedure LockClient.acquireLock, with its
helpers acquireNewLock, tryStealingExistingLock and stealExistingLock
transcribed inline at their call sites.  Fuel bounds the recursion depth;
`none` means the run did not terminate within the provided fuel. -/
def acquireLoop (b : Backend) : Nat → Lock → Nat → RunState → Option (AcqOutcome × RunState)
  | 0, _, _, _ => none
  | fuel + 1, lock, retryCount, rs =>
    -- acquireLock: already-acquired and maxRetryCount guards, then the read.
    if lock.isAcquired then
      some (AcqOutcome.notGranted, rs)
    else if maxRetryExceeded lock retryCount then
      some (AcqOutcome.notGranted, rs)
    else
      let retryCount := retryCount + 1
      let (resp, rs) := rs.doGet b
      match resp with
      | some attrs =>
        -- existingLock := Lock.create(group, id, record attrs, isAcquired = true).
        match Lock.create lock.lockGroup lock.lockId attrs.ownerName
            attrs.recordVersionNumber attrs.lastUpdatedTimeInMs true
            { additionalAttributes := some attrs.additionalAttributes,
              leaseDurationInMs := some attrs.leaseDurationInMs } with
        | Except.error _ => some (AcqOutcome.notGranted, rs)  -- unreachable: isAcquired = true
        | Except.ok existingLock =>
          let (now, rs) := rs.doNow b
          if lock.trustLocalTime && existingLock.leaseExpirationTimePassed now then
            -- stealExistingLock
            let (rvn, rs) := rs.freshUUID
            let (whenMs, rs) := rs.doNow b
            let lock := lock.attemptLocking rvn whenMs
            let (w, rs) := rs.doWrite b
            match w with
            | WriteResp.ok =>
              let lr := lockAcquired lock rs
              some (AcqOutcome.acquired lr.1, lr.2)
            | WriteResp.condFail =>
              acquireLoop b fuel lock.resetLockingAttempt retryCount rs
            | WriteResp.err code => some (AcqOutcome.backendErr code, rs)
          else if lock.trustLocalTime then
            -- tryStealingExistingLock, trustLocalTime branch: wait then re-read.
            acquireLoop b fuel lock retryCount rs
          else
            -- tryStealingExistingLock, default branch: wait a lease duration,
            -- then stealExistingLock.
            let (rvn, rs) := rs.freshUUID
            let (whenMs, rs) := rs.doNow b
            let lock := lock.attemptLocking rvn whenMs
            let (w, rs) := rs.doWrite b
            match w with
            | WriteResp.ok =>
              let lr := lockAcquired lock rs
              some (AcqOutcome.acquired lr.1, lr.2)
            | WriteResp.condFail =>
              acquireLoop b fuel lock.resetLockingAttempt retryCount rs
            | WriteResp.err code => some (AcqOutcome.backendErr code, rs)
      | none =>
        -- acquireNewLock; note the second retryCount increment of the source.
        let retryCount := retryCount + 1
        let (rvn, rs) := rs.freshUUID
        let (whenMs, rs) := rs.doNow b
        let lock := lock.attemptLocking rvn whenMs
        let (w, rs) := rs.doWrite b
        match w with
        | WriteResp.ok =>
          let lr := lockAcquired lock rs
          some (AcqOutcome.acquired lr.1, lr.2)
        | WriteResp.condFail =>
          acquireLoop b fuel lock.resetLockingAttempt retryCount rs
        | WriteResp.err code => some (AcqOutcome.backendErr code, rs)

/-- Result of a top-level LockClient.lock call. -/
inductive LockResult where
  | granted (lock : Lock)
  | optionsValidation
  | notGranted
  | backendErr (code : String)
deriving DecidableEq, Repr

/-- LockClient.lock: build the handle via Lock.create (isAcquired = false),
rejecting with LockOptionsValidationError before any backend call on
validation failure; otherwise run acquireLock from retryCount = 0. -/
def lockCall (b : Backend) (fuel : Nat) (lockGroup lockId ownerName : String)
    (lockOptions : LockOptions) (rs : RunState) : Option (LockResult × RunState) :=
  match Lock.create lockGroup lockId ownerName none none false lockOptions with
  | Except.error _ => some (LockResult.optionsValidation, rs)
  | Except.ok lock =>
    match acquireLoop b fuel lock 0 rs with
    | none => none
    | some (AcqOutcome.acquired l, rs) => some (LockResult.granted l, rs)
    | some (AcqOutcome.notGranted, rs) => some (LockResult.notGranted, rs)
    | some (AcqOutcome.backendErr c, rs) => some (LockResult.backendErr c, rs)

/-! ## Release and prolongation (lock-client.ts) -/

/-- Observable steps of the release and renewal paths, in program order. -/
inductive Action where
  | aHandleReleased
  | aRegistryRemove
  | aDelete
  | aRenew
  | aTimerArmed
  | aLog (severity : LogSeverity)
deriving DecidableEq, Repr

/-- Result of LockClient.releaseLock on one handle. -/
structure ReleaseResult where
  registry : List (String × Lock)
  handle : Lock
  outcome : Except DbError Unit
  trace : List Action
deriving Repr

/-- LockClient.releaseLock: call lock.released() and delete the registry
entry first, then issue dataLayer.deleteLock; a
ConditionalCheckFailedException from the delete is logged as a warning and
swallowed, any other error is rethrown. `deleteResp` is the backend's
response to the delete. -/
def releaseLock (regs : List (String × Lock)) (lock : Lock) (deleteResp : WriteResp) :
    ReleaseResult :=
  let lock := lock.released
  let regs := regRemove lock.getUniqueLockIdentifier regs
  match deleteResp with
  | WriteResp.ok =>
    { registry := regs, handle := lock, outcome := Except.ok ()
      trace := [Action.aHandleReleased, Action.aRegistryRemove, Action.aDelete,
                Action.aLog LogSeverity.info] }
  | WriteResp.condFail =>
    { registry := regs, handle := lock, outcome := Except.ok ()
      trace := [Action.aHandleReleased, Action.aRegistryRemove, Action.aDelete,
                Action.aLog LogSeverity.warn] }
  | WriteResp.err code =>
    { registry := regs, handle := lock, outcome := Except.error (DbError.transport code)
      trace := [Action.aHandleReleased, Action.aRegistryRemove, Action.aDelete] }

/-- Result of releaseLock run against the store semantics. -/
structure ReleaseOnStoreResult where
  registry : List (String × Lock)
  handle : Lock
  item : Option LockRecord
  outcome : Except DbError Unit
deriving Repr

/-- releaseLock composed with the store-level semantics of
DataLayer.deleteLock on the item stored under the handle's key: the delete
either removes the item (conditions met) or fails the conditional check
(item absent or not owned), which releaseLock swallows. -/
def releaseLockOnStore (regs : List (String × Lock)) (lock : Lock)
    (item : Option LockRecord) : ReleaseOnStoreResult :=
  match DataLayer.deleteLock item lock with
  | Except.ok item' =>
    let r := releaseLock regs lock WriteResp.ok
    { registry := r.registry, handle := r.handle, item := item', outcome := r.outcome }
  | Except.error _ =>
    let r := releaseLock regs lock WriteResp.condFail
    { registry := r.registry, handle := r.handle, item := item, outcome := r.outcome }

/-- Result of LockClient.releaseAllLocks. -/
structure ReleaseAllResult where
  registry : List (String × Lock)
  handles : List Lock
  trace : List Action
deriving Repr

/-- LockClient.releaseAllLocks as the source writes it: snapshot the
registry, clear it, call released() on every snapshotted handle — and then
await the array that was filled with the Lock objects themselves
(releaseLockPromises.push(lock)); dataLayer.deleteLock is never invoked, so
the trace holds no aDelete. -/
def releaseAllLocks (regs : List (String × Lock)) : ReleaseAllResult :=
  { registry := []
    handles := regs.map fun p => (p.2).released
    trace := regs.map fun _ => Action.aHandleReleased }

/-- Result of one firing of the prolongation timer. -/
structure TimerFireResult where
  handle : Option Lock
  outcome : Except DbError Unit
  trace : List Action
  rearmed : Bool
deriving Repr

/-- The one-shot renewal callback of LockClient.startProlongingLease.
`lockAtFire` is the state, when the timer fires, of the handle the closure
captured (the registry object shares this handle by reference).  If the
handle is gone or no longer acquired the callback returns without any
backend call.  Otherwise prolongLease issues the renewal write with no
catch around it: on success the handle is prolonged and the timer re-armed;
on any rejection (ConditionalCheckFailedException included) the rejection
escapes the async callback — nothing is logged and no timer is re-armed. -/
def timerFire (lockAtFire : Option Lock) (renewResp : WriteResp)
    (newRecordVersionNumber : String) (now : Ms) : TimerFireResult :=
  match lockAtFire with
  | none => { handle := none, outcome := Except.ok (), trace := [], rearmed := false }
  | some lock =>
    if !lock.isAcquired then
      { handle := some lock, outcome := Except.ok (), trace := [], rearmed := false }
    else
      match renewResp with
      | WriteResp.ok =>
        { handle := some ((lock.prolonged newRecordVersionNumber now).attemptProlonging)
          outcome := Except.ok ()
          trace := [Action.aRenew, Action.aLog LogSeverity.info, Action.aTimerArmed]
          rearmed := true }
      | WriteResp.condFail =>
        { handle := some lock, outcome := Except.error DbError.conditionalCheckFailed
          trace := [Action.aRenew], rearmed := false }
      | WriteResp.err code =>
        { handle := some lock, outcome := Except.error (DbError.transport code)
          trace := [Action.aRenew], rearmed := false }

/-! ## Concrete fixtures used by the claim theorems -/

/-- A backend where no record ever exists and every conditional write fails
its conditional check. -/
def backendNoneCondFail : Backend :=
  { getResp := fun _ => none, writeResp := fun _ => WriteResp.condFail, nowAt := fun _ => 0 }

/-- A backend where no record ever exists and every write fails with a
transport error. -/
def backendNoneErr : Backend :=
  { getResp := fun _ => none, writeResp := fun _ => WriteResp.err "boom", nowAt := fun _ => 0 }

/-- A stored record, long expired by the reading clock of
backendStealCondFail. -/
def recStale : LockRecord :=
  { recordVersionNumber := some "rv", ownerName := "other", lastUpdatedTimeInMs := some 1,
    leaseDurationInMs := 1, additionalAttributes := [] }

/-- A backend that always returns recStale on reads, fails every write's
conditional check, and whose clock reads far beyond the record's lease. -/
def backendStealCondFail : Backend :=
  { getResp := fun _ => some recStale, writeResp := fun _ => WriteResp.condFail,
    nowAt := fun _ => 1000000 }

/-- Options of the create-path retry run: maxRetryCount 1, prolongation
off. -/
def optsCreateRetry : LockOptions :=
  { prolongLeaseEnabled := some false, maxRetryCount := some 1 }

/-- Options forcing every acquisition iteration through the immediate-steal
path: trustLocalTime on, prolongation off, maxRetryCount m. -/
def optsStealRetry (m : Nat) : LockOptions :=
  { prolongLeaseEnabled := some false, trustLocalTime := some true, maxRetryCount := some m }

/-- The handle LockClient.lock builds from optsStealRetry m. -/
def lockStealRetry (m : Nat) : Lock :=
  { lockId := "i", lockGroup := "g", ownerName := "o", prolongLeaseEnabled := false,
    trustLocalTime := true, maxRetryCount := some m }

/-- A handle whose stored write time is the number 0 — a set value. -/
def lockTimeZero : Lock :=
  { lockId := "i", lockGroup := "g", ownerName := "o", lastUpdatedTimeInMs := some 0 }

/-- The handle Lock.create builds for an empty lockGroup and default
options. -/
def lockEmptyGroup : Lock := { lockId := "id", lockGroup := "", ownerName := "owner" }

/-- An acquired handle with prolongation scheduled, as the registry holds it
between renewals. -/
def lockHeld : Lock :=
  { lockId := "i", lockGroup := "g", ownerName := "o", isAcquired := true,
    recordVersionNumber := some "v0", lastUpdatedTimeInMs := some 1000,
    timeoutHandler := some () }

/-! ## Helper lemmas -/

/-- Lock.create fails exactly when the handle it builds violates the
prolongation invariant: not acquired, prolongation enabled, and the
effective prolongEveryMs at least half the effective leaseDurationInMs. -/
theorem Lock.create_error_iff (lockGroup lockId ownerName : String)
    (rvn : Option String) (t : Option Ms) (isAcquired : Bool) (opts : LockOptions) :
    Lock.create lockGroup lockId ownerName rvn t isAcquired opts = Except.error () ↔
      (isAcquired = false ∧ opts.prolongLeaseEnabled.getD true = true ∧
        opts.prolongEveryMs.getD 5000 ≥ opts.leaseDurationInMs.getD 20000 / 2) := by
  simp only [Lock.create, Lock.validateFails]
  split
  · rename_i h
    simp only [Bool.and_eq_true, Bool.not_eq_true', decide_eq_true_eq] at h
    simp only [ge_iff_le, true_iff]
    exact ⟨h.1.1, h.1.2, h.2⟩
  · rename_i h
    simp only [Bool.and_eq_true, Bool.not_eq_true', decide_eq_true_eq, not_and] at h
    refine iff_of_false (by simp) ?_
    intro hc
    exact h ⟨hc.1, hc.2.1⟩ hc.2.2

/-- Looking up a key just removed from the registry yields nothing. -/
theorem regLookup_remove (uid : String) (regs : List (String × Lock)) :
    regLookup uid (regRemove uid regs) = none := by
  simp only [regLookup, regRemove, Option.map_eq_none', List.find?_eq_none,
    decide_eq_true_eq]
  intro p hp
  simp only [List.mem_filter, decide_eq_true_eq, ne_eq] at hp
  exact hp.2

/-- On the store semantics (where a delete either succeeds or fails its
conditional check), releaseLock always returns success: conditional failures
are swallowed. -/
theorem releaseLockOnStore_outcome_ok (regs : List (String × Lock)) (lock : Lock)
    (item : Option LockRecord) : (releaseLockOnStore regs lock item).outcome = Except.ok () := by
  unfold releaseLockOnStore
  cases DataLayer.deleteLock item lock <;> rfl

/-- The handle releaseLock returns is the released handle, whatever the
backend answered. -/
theorem releaseLock_handle (regs : List (String × Lock)) (lock : Lock) (resp : WriteResp) :
    (releaseLock regs lock resp).handle = lock.released := by
  cases resp <;> rfl

/-- The registry releaseLock returns has the handle's entry removed,
whatever the backend answered. -/
theorem releaseLock_registry (regs : List (String × Lock)) (lock : Lock) (resp : WriteResp) :
    (releaseLock regs lock resp).registry = regRemove lock.getUniqueLockIdentifier regs := by
  cases resp <;> rfl

/-! ## Claim theorems -/

/-- Claim C2: the store adapter's four write operations use exactly these
conditional predicates — createNewLock requires both key attributes absent;
updateLockWithNewLockContent (steal) gates only on the stored
recordVersionNumber, not on ownerName; updateRecordVersionNumberAndTime
(renew) and deleteLock gate on both the recordVersionNumber and the
ownerName of the issuing handle.  Stated over the condition-expression
strings the adapter builds and over the store semantics of each
operation. -/
theorem C2_store_adapter_conditional_predicates :
    (ACQUIRE_LOCK_THAT_DOESNT_EXIST_CONDITION =
        "attribute_not_exists(#pk) AND attribute_not_exists(#sk)") ∧
    (LOCK_EXIST_AND_RVN_SAME_CONDITION =
        "attribute_exists(#pk) AND attribute_exists(#sk) AND #recordVersionNumber = :recordVersionNumber") ∧
    (LOCK_EXIST_AND_RVN_AND_OWNER_NAME_SAME_CONDITION =
        "attribute_exists(#pk) AND attribute_exists(#sk) AND #recordVersionNumber = :recordVersionNumber AND #ownerName = :ownerName") ∧
    (∀ (item : Option LockRecord) (lockItem : Lock),
      (∃ item', DataLayer.createNewLock item lockItem = Except.ok item') ↔ item = none) ∧
    (∀ (item : Option LockRecord) (existingLock newLock : Lock),
      (∃ item', DataLayer.updateLockWithNewLockContent item existingLock newLock =
          Except.ok item') ↔
        ∃ r, item = some r ∧ r.recordVersionNumber = existingLock.recordVersionNumber) ∧
    (∀ (item : Option LockRecord) (existingLock : Lock) (rvn : String) (whenMs : Ms),
      (∃ item', DataLayer.updateRecordVersionNumberAndTime item existingLock rvn whenMs =
          Except.ok item') ↔
        ∃ r, item = some r ∧ r.recordVersionNumber = existingLock.recordVersionNumber ∧
          r.ownerName = existingLock.ownerName) ∧
    (∀ (item : Option LockRecord) (lockItem : Lock),
      (∃ item', DataLayer.deleteLock item lockItem = Except.ok item') ↔
        ∃ r, item = some r ∧ r.recordVersionNumber = lockItem.recordVersionNumber ∧
          r.ownerName = lockItem.ownerName) := by
  refine ⟨rfl, rfl, rfl, ?_, ?_, ?_, ?_⟩
  · intro item lockItem
    cases item <;> simp [DataLayer.createNewLock]
  · intro item ex nw
    cases item with
    | none => simp [DataLayer.updateLockWithNewLockContent]
    | some r =>
      simp only [DataLayer.updateLockWithNewLockContent]
      split
      · rename_i h
        simp [h]
      · rename_i h
        simp
        tauto
  · intro item ex rvn whenMs
    cases item with
    | none => simp [DataLayer.updateRecordVersionNumberAndTime]
    | some r =>
      simp only [DataLayer.updateRecordVersionNumberAndTime]
      split
      · rename_i h
        simp [h.1, h.2]
      · rename_i h
        simp
        tauto
  · intro item lockItem
    cases item with
    | none => simp [DataLayer.deleteLock]
    | some r =>
      simp only [DataLayer.deleteLock]
      split
      · rename_i h
        simp [h.1, h.2]
      · rename_i h
        simp
        tauto

/-- Claim C1 (the code as written): releaseAllLocks clears the registry and
marks every snapshotted handle released, but its trace holds no backend
delete at all — dataLayer.deleteLock is never invoked, contrary to the claim
that one delete per handle is issued and awaited. -/
theorem C1_release_all_locks_no_deletes (regs : List (String × Lock)) :
    ((releaseAllLocks regs).trace.count Action.aDelete = 0) ∧
    ((releaseAllLocks regs).registry = []) ∧
    (∀ l ∈ (releaseAllLocks regs).handles, l.isAcquired = false ∧ l.timeoutHandler = none) := by
  refine ⟨?_, rfl, ?_⟩
  · simp [releaseAllLocks, List.count_eq_zero, List.mem_map]
  · intro l hl
    simp only [releaseAllLocks, List.mem_map] at hl
    obtain ⟨p, _, rfl⟩ := hl
    exact ⟨rfl, rfl⟩

/-- Claim C3 (the code as written): when a scheduled renewal's conditional
update fails with ConditionalCheckFailed, the timer callback logs no warning
and does not re-arm; the rejection escapes the callback unhandled instead of
being caught. -/
theorem C3_renewal_cond_failure_escapes :
    ((timerFire (some lockHeld) WriteResp.condFail "v1" 2000).outcome =
        Except.error DbError.conditionalCheckFailed) ∧
    ((timerFire (some lockHeld) WriteResp.condFail "v1" 2000).trace.count
        (Action.aLog LogSeverity.warn) = 0) ∧
    ((timerFire (some lockHeld) WriteResp.condFail "v1" 2000).rearmed = false) := by
  refine ⟨rfl, rfl, rfl⟩

/-- Claim C4: releaseLock clears isAcquired, cancels the pending
prolongation timer and removes the registry entry strictly before the
backend delete is issued; a ConditionalCheckFailed from the delete is logged
as a warning and swallowed so the call returns success (hence a second
releaseLock on the same handle does not fail), while any other backend error
is propagated. -/
theorem C4_release_lock_local_first (regs : List (String × Lock)) (lock : Lock)
    (resp : WriteResp) (item : Option LockRecord) :
    ((releaseLock regs lock resp).handle.isAcquired = false) ∧
    ((releaseLock regs lock resp).handle.timeoutHandler = none) ∧
    (regLookup lock.getUniqueLockIdentifier (releaseLock regs lock resp).registry = none) ∧
    (∃ rest, (releaseLock regs lock resp).trace =
      Action.aHandleReleased :: Action.aRegistryRemove :: Action.aDelete :: rest) ∧
    (resp = WriteResp.condFail → (releaseLock regs lock resp).outcome = Except.ok () ∧
      (releaseLock regs lock resp).trace.count (Action.aLog LogSeverity.warn) = 1) ∧
    (∀ code, resp = WriteResp.err code →
      (releaseLock regs lock resp).outcome = Except.error (DbError.transport code)) ∧
    ((releaseLockOnStore regs lock item).outcome = Except.ok ()) ∧
    ((releaseLockOnStore (releaseLockOnStore regs lock item).registry
        (releaseLockOnStore regs lock item).handle
        (releaseLockOnStore regs lock item).item).outcome = Except.ok ()) := by
  refine ⟨?_, ?_, ?_, ?_, ?_, ?_, ?_, ?_⟩
  · rw [releaseLock_handle]; rfl
  · rw [releaseLock_handle]; rfl
  · rw [releaseLock_registry]; exact regLookup_remove _ _
  · cases resp <;> exact ⟨_, rfl⟩
  · intro h; subst h; exact ⟨rfl, rfl⟩
  · intro code h; subst h; rfl
  · exact releaseLockOnStore_outcome_ok _ _ _
  · exact releaseLockOnStore_outcome_ok _ _ _

/-- Claim C9: after releaseLock returns, the handle is no longer acquired
and its timer handle is cancelled, so a prolongation timer that still fires
— whether through the captured handle or through a registry lookup —
issues no renewal write and never re-arms. -/
theorem C9_no_renewal_after_release (regs : List (String × Lock)) (lock : Lock)
    (deleteResp renewResp : WriteResp) (rvn : String) (now : Ms) :
    ((releaseLock regs lock deleteResp).handle.isAcquired = false) ∧
    ((releaseLock regs lock deleteResp).handle.timeoutHandler = none) ∧
    ((timerFire (some (releaseLock regs lock deleteResp).handle) renewResp rvn now).trace.count
        Action.aRenew = 0) ∧
    ((timerFire (some (releaseLock regs lock deleteResp).handle) renewResp rvn now).rearmed =
        false) ∧
    ((timerFire (regLookup lock.getUniqueLockIdentifier
          (releaseLock regs lock deleteResp).registry) renewResp rvn now).trace.count
        Action.aRenew = 0) := by
  rw [releaseLock_handle, releaseLock_registry, regLookup_remove]
  exact ⟨rfl, rfl, rfl, rfl, rfl⟩

/-- Claim C7 (counterexample): a handle whose lastUpdatedTimeInMs is the set
value 0 and whose lease has long passed still reports
leaseExpirationTimePassed = false — the claim demands true there. -/
theorem C7_counterexample :
    lockTimeZero.lastUpdatedTimeInMs = some 0 ∧
    ((20001 : Ms) > 0 + lockTimeZero.leaseDurationInMs) ∧
    lockTimeZero.leaseExpirationTimePassed 20001 = false := by
  refine ⟨rfl, by norm_num [lockTimeZero], rfl⟩

/-- Claim C7 as amended: leaseExpirationTimePassed returns false when
lastUpdatedTimeInMs is unset or 0 (JS falsiness), and returns true exactly
when a nonzero write time is set and now > lastUpdatedTimeInMs +
leaseDurationInMs. -/
theorem C7_lease_expiration_amended (l : Lock) (now : Ms) :
    (l.lastUpdatedTimeInMs = none → l.leaseExpirationTimePassed now = false) ∧
    (l.lastUpdatedTimeInMs = some 0 → l.leaseExpirationTimePassed now = false) ∧
    (l.leaseExpirationTimePassed now = true ↔
      ∃ t, l.lastUpdatedTimeInMs = some t ∧ t ≠ 0 ∧ now > t + l.leaseDurationInMs) := by
  refine ⟨?_, ?_, ?_⟩
  · intro h; simp [Lock.leaseExpirationTimePassed, h]
  · intro h; simp [Lock.leaseExpirationTimePassed, h]
  · cases h : l.lastUpdatedTimeInMs with
    | none => simp [Lock.leaseExpirationTimePassed, h]
    | some t =>
      by_cases h0 : t = 0
      · simp [Lock.leaseExpirationTimePassed, h, h0]
      · simp [Lock.leaseExpirationTimePassed, h, h0]

/-- Claim C8 (counterexample): Lock.create with an empty lockGroup and
default options succeeds and returns a handle — the claim demands failure
for every input with an empty group, id or owner. -/
theorem C8_counterexample :
    Lock.create "" "id" "owner" none none false {} = Except.ok lockEmptyGroup := by
  have h : ((20000 : ℚ) / 2 ≤ 5000) = False := by norm_num
  simp [Lock.create, Lock.validateFails, h, lockEmptyGroup]

/-- Claim C8 as amended: Lock.create enforces only the prolongation
invariant — it fails exactly when the handle is not acquired, prolongation
is enabled and prolongEveryMs ≥ leaseDurationInMs / 2; emptiness of the
identity strings (and positivity of numeric options) is never checked, so
the outcome is independent of the strings. -/
theorem C8_create_validation_amended (lockGroup lockId ownerName : String)
    (rvn : Option String) (t : Option Ms) (isAcquired : Bool) (opts : LockOptions) :
    (Lock.create lockGroup lockId ownerName rvn t isAcquired opts = Except.error () ↔
      (isAcquired = false ∧ opts.prolongLeaseEnabled.getD true = true ∧
        opts.prolongEveryMs.getD 5000 ≥ opts.leaseDurationInMs.getD 20000 / 2)) ∧
    (∀ g2 i2 o2 : String,
      (Lock.create lockGroup lockId ownerName rvn t isAcquired opts = Except.error ()) ↔
      (Lock.create g2 i2 o2 rvn t isAcquired opts = Except.error ())) := by
  refine ⟨Lock.create_error_iff lockGroup lockId ownerName rvn t isAcquired opts, ?_⟩
  intro g2 i2 o2
  rw [Lock.create_error_iff, Lock.create_error_iff]

/-- Claim C5: a lock() call with prolongation enabled is rejected with
LockOptionsValidation — before any backend call, the run state is returned
untouched — exactly when prolongEveryMs ≥ leaseDurationInMs / 2; at the
boundary, prolongEveryMs = leaseDurationInMs / 2 is rejected and
prolongEveryMs = leaseDurationInMs / 2 − 1 is accepted. -/
theorem C5_prolong_ratio_validation (b : Backend) (fuel : Nat) (g i o : String)
    (opts : LockOptions) (rs : RunState) (L : Ms) :
    (opts.prolongLeaseEnabled.getD true = true →
      ((lockCall b fuel g i o opts rs = some (LockResult.optionsValidation, rs)) ↔
        opts.prolongEveryMs.getD 5000 ≥ opts.leaseDurationInMs.getD 20000 / 2)) ∧
    (Lock.create g i o none none false
      { leaseDurationInMs := some L, prolongEveryMs := some (L / 2) } = Except.error ()) ∧
    (Lock.create g i o none none false
      { leaseDurationInMs := some L, prolongEveryMs := some (L / 2 - 1) } ≠ Except.error ()) := by
  refine ⟨?_, ?_, ?_⟩
  · intro hp
    constructor
    · intro h
      cases hc : Lock.create g i o none none false opts with
      | error e =>
        cases e
        exact ((Lock.create_error_iff g i o none none false opts).mp hc).2.2
      | ok lk =>
        exfalso
        rcases hal : acquireLoop b fuel lk 0 rs with _ | ⟨out, rs2⟩
        · simp only [lockCall, hc, hal] at h
          exact Option.noConfusion h
        · simp only [lockCall, hc, hal] at h
          cases out <;> simp at h
    · intro h
      have hc : Lock.create g i o none none false opts = Except.error () :=
        (Lock.create_error_iff g i o none none false opts).mpr ⟨rfl, hp, h⟩
      simp only [lockCall, hc]
  · exact (Lock.create_error_iff g i o none none false _).mpr ⟨rfl, rfl, le_refl _⟩
  · intro h
    have h2 := ((Lock.create_error_iff g i o none none false _).mp h).2.2
    have h3 : L / 2 - 1 ≥ L / 2 := h2
    linarith

/-- One iteration of the acquisition loop on backendStealCondFail: below the
retry bound, an iteration reads the stale record, takes the immediate-steal
path, fails the conditional write, and recurses with the counter advanced by
exactly one. -/
theorem stealStep (m r : Nat) (rs : RunState) (hr : r ≤ m) (fuel : Nat) :
    acquireLoop backendStealCondFail (fuel + 1) (lockStealRetry m) r rs =
      acquireLoop backendStealCondFail fuel (lockStealRetry m) (r + 1)
        { rs with getCount := rs.getCount + 1, writeCount := rs.writeCount + 1,
                  tick := rs.tick + 1 + 1, uuidCount := rs.uuidCount + 1 } := by
  have hmr : ¬ (r > m) := by omega
  have hg2 : decide (r > m) = false := decide_eq_false hmr
  have h1 : ((1 : ℚ) = 0) = False := by norm_num
  have h2 : decide ((1000000 : ℚ) > 1 + 1) = true := by
    simp only [decide_eq_true_eq]
    norm_num
  simp [acquireLoop, RunState.doGet, RunState.doNow, RunState.doWrite, RunState.freshUUID,
    backendStealCondFail, recStale, lockStealRetry, maxRetryExceeded, hg2, Lock.create,
    Lock.validateFails, Lock.leaseExpirationTimePassed, Lock.attemptLocking,
    Lock.resetLockingAttempt, h1, h2]

/-- On backendStealCondFail, starting k iterations short of the retry bound,
the loop performs exactly k further reads and then fails with
LockNotGranted. -/
theorem stealLoop_notGranted (m : Nat) : ∀ (k r : Nat) (rs : RunState), r + k = m + 1 →
    ∃ rs', acquireLoop backendStealCondFail (k + 1) (lockStealRetry m) r rs =
        some (AcqOutcome.notGranted, rs') ∧ rs'.getCount = rs.getCount + k := by
  intro k
  induction k with
  | zero =>
    intro r rs hr
    refine ⟨rs, ?_, by simp⟩
    have hg2 : decide (r > m) = true := decide_eq_true (by omega)
    simp [acquireLoop, lockStealRetry, maxRetryExceeded, hg2]
  | succ k ih =>
    intro r rs hr
    rw [stealStep m r rs (by omega) (k + 1)]
    obtain ⟨rs', ha, hb⟩ := ih (r + 1) _ (by omega)
    refine ⟨rs', ha, ?_⟩
    simp only [RunState.getCount] at hb ⊢
    omega

/-- Lifting a notGranted run of the acquisition loop to the top-level lock
call. -/
theorem lockCall_notGranted (b : Backend) (fuel : Nat) (g i o : String)
    (opts : LockOptions) (rs : RunState) (lk : Lock)
    (hc : Lock.create g i o none none false opts = Except.ok lk) (rs' : RunState)
    (hal : acquireLoop b fuel lk 0 rs = some (AcqOutcome.notGranted, rs')) :
    lockCall b fuel g i o opts rs = some (LockResult.notGranted, rs') := by
  simp only [lockCall, hc, hal]

/-- The handle built by LockClient.lock from optsStealRetry m. -/
theorem createStealRetry (m : Nat) :
    Lock.create "g" "i" "o" none none false (optsStealRetry m) =
      Except.ok (lockStealRetry m) := by
  simp [Lock.create, Lock.validateFails, optsStealRetry, lockStealRetry]

/-- Claim C6 (counterexample): with maxRetryCount = 1 the claim predicts
failure after exactly 2 attempts (one strong read each); on a backend where
no record exists and every create fails its conditional check, the call
fails with LockNotGranted after a single strong read, because acquireNewLock
increments the retry counter a second time. -/
theorem C6_counterexample :
    ((lockCall backendNoneCondFail 10 "g" "i" "o" optsCreateRetry RunState.init).map
        (fun p => (p.1, p.2.getCount)) = some (LockResult.notGranted, 1)) ∧
    (1 : Nat) ≠ 1 + 1 := by
  refine ⟨by decide, by decide⟩

/-- Claim C6 as amended: each entry into the acquisition loop increments the
retry counter once and acquireNewLock increments it a second time on the
create-new path; when every iteration takes the steal path, a call with
maxRetryCount = m fails with LockNotGranted after exactly m + 1 attempts
(strong reads), while create-new iterations consume two counts each (so an
m = 1 run with create-path contention makes only one attempt). -/
theorem C6_retry_counting_amended :
    (∀ m : Nat, ∃ rs', lockCall backendStealCondFail (m + 2) "g" "i" "o" (optsStealRetry m)
        RunState.init = some (LockResult.notGranted, rs') ∧ rs'.getCount = m + 1) ∧
    ((lockCall backendNoneCondFail 10 "g" "i" "o" optsCreateRetry RunState.init).map
        (fun p => (p.1, p.2.getCount)) = some (LockResult.notGranted, 1)) := by
  constructor
  · intro m
    obtain ⟨rs', ha, hb⟩ := stealLoop_notGranted m (m + 1) 0 RunState.init (by omega)
    exact ⟨rs', lockCall_notGranted backendStealCondFail (m + 2) "g" "i" "o" (optsStealRetry m)
      RunState.init (lockStealRetry m) (createStealRetry m) rs' ha,
      by simpa [RunState.init] using hb⟩
  · decide

/-- If a run of the acquisition loop terminates without granting the lock,
it leaves the registry untouched and arms no prolongation timer: both are
touched only by lockAcquired, which is reached only on a successful create
or steal write and immediately yields the granted outcome. -/
theorem acquireLoop_not_acquired_frame (b : Backend) (fuel : Nat) :
    ∀ (lock : Lock) (r : Nat) (rs : RunState) (out : AcqOutcome) (rs' : RunState),
      acquireLoop b fuel lock r rs = some (out, rs') →
      (∀ l, out ≠ AcqOutcome.acquired l) →
      rs'.registry = rs.registry ∧ rs'.timersArmed = rs.timersArmed := by
  induction fuel with
  | zero =>
    intro lock r rs out rs' h _
    exact Option.noConfusion h
  | succ fuel ih =>
    intro lock r rs out rs' h hout
    simp only [acquireLoop, RunState.doGet, RunState.doNow, RunState.doWrite,
      RunState.freshUUID] at h
    split at h
    · cases h; exact ⟨rfl, rfl⟩
    · split at h
      · cases h; exact ⟨rfl, rfl⟩
      · split at h
        · split at h
          · cases h; exact ⟨rfl, rfl⟩
          · split at h
            · split at h
              · cases h; exact absurd rfl (hout _)
              · have hi := ih _ _ _ _ _ h hout
                exact ⟨hi.1, hi.2⟩
              · cases h; exact ⟨rfl, rfl⟩
            · split at h
              · have hi := ih _ _ _ _ _ h hout
                exact ⟨hi.1, hi.2⟩
              · split at h
                · cases h; exact absurd rfl (hout _)
                · have hi := ih _ _ _ _ _ h hout
                  exact ⟨hi.1, hi.2⟩
                · cases h; exact ⟨rfl, rfl⟩
        · split at h
          · cases h; exact absurd rfl (hout _)
          · have hi := ih _ _ _ _ _ h hout
            exact ⟨hi.1, hi.2⟩
          · cases h; exact ⟨rfl, rfl⟩

/-- Claim C10: a lock() invocation that terminates by throwing — options
validation, LockNotGranted, or a propagated backend error — leaves the
coordinator's registry exactly as it was and arms no prolongation timer. -/
theorem C10_failed_lock_frame (b : Backend) (fuel : Nat) (g i o : String)
    (opts : LockOptions) (rs : RunState) (res : LockResult) (rs' : RunState)
    (hrun : lockCall b fuel g i o opts rs = some (res, rs'))
    (hfail : ∀ l, res ≠ LockResult.granted l) :
    rs'.registry = rs.registry ∧ rs'.timersArmed = rs.timersArmed := by
  cases hc : Lock.create g i o none none false opts with
  | error e =>
    simp only [lockCall, hc] at hrun
    cases hrun
    exact ⟨rfl, rfl⟩
  | ok lk =>
    rcases hal : acquireLoop b fuel lk 0 rs with _ | ⟨out, rs2⟩
    · simp only [lockCall, hc, hal] at hrun
      exact Option.noConfusion hrun
    · simp only [lockCall, hc, hal] at hrun
      cases out with
      | acquired l =>
        cases hrun
        exact absurd rfl (hfail l)
      | notGranted =>
        cases hrun
        exact acquireLoop_not_acquired_frame b fuel lk 0 rs AcqOutcome.notGranted rs' hal
          (fun l hl => AcqOutcome.noConfusion hl)
      | backendErr c =>
        cases hrun
        exact acquireLoop_not_acquired_frame b fuel lk 0 rs (AcqOutcome.backendErr c) rs' hal
          (fun l hl => AcqOutcome.noConfusion hl)

/-- Witness for C10 at a concrete input: a run against backendNoneErr whose
create write fails with a transport error ends with the registry and armed
timers exactly as before the call. -/
theorem C10_witness :
    ({ registry := [], getCount := 1, writeCount := 1, timersArmed := 0, tick := 1,
        uuidCount := 1 } : RunState).registry = RunState.init.registry ∧
    ({ registry := [], getCount := 1, writeCount := 1, timersArmed := 0, tick := 1,
        uuidCount := 1 } : RunState).timersArmed = RunState.init.timersArmed :=
  C10_failed_lock_frame backendNoneErr 5 "g" "i" "o" { prolongLeaseEnabled := some false }
    RunState.init (LockResult.backendErr "boom")
    { registry := [], getCount := 1, writeCount := 1, timersArmed := 0, tick := 1,
      uuidCount := 1 }
    (by decide) (fun l hl => LockResult.noConfusion hl)

end DynamoLock
